import Mathlib

/-!
Verification model of `upload_to_harpin.py` (harpin-ai/utilities).

The script is a linear HTTP workflow: authenticate, validate the local file,
validate the remote source, check a concurrency gate, create an upload, stream
to storage, and poll two phases.  Each Python function is embedded as a pure
Lean function over its observable inputs; network effects are modelled by
passing the responses the remote side would deliver (an `HttpOutcome` value,
or an attempt-indexed `Nat → Except ε β` function for the retry wrapper), and
`sys.exit(code)` is modelled by outcome constructors carrying the exit code.
Float arithmetic in `format_file_size` is modelled over `ℚ`; every division in
the source is by 1024 (a power of two) of values far below 2^53, where binary
floating point is exact, so the `ℚ` model agrees with the script.
-/

namespace Harpin

/-! ### Constants (upload_to_harpin.py, lines 52-63) -/

def MAX_CONCURRENT_UPLOADS : Nat := 3

def MAX_FILE_SIZE_GB : Nat := 5

def MAX_FILE_SIZE_BYTES : Nat := MAX_FILE_SIZE_GB * 1024 * 1024 * 1024

def RETRY_ATTEMPTS : Nat := 3

def RETRY_DELAY_SECONDS : Nat := 10

def POLL_INTERVAL_SECONDS : Nat := 5

def EXIT_SUCCESS : Nat := 0

def EXIT_USER_ERROR : Nat := 1

def EXIT_SYSTEM_ERROR : Nat := 2

/-! ### Generic HTTP outcome

A network call either yields an HTTP response (status code plus parsed JSON
body) or raises a transport-level `requests.exceptions.RequestException`. -/

inductive HttpOutcome (β : Type) : Type where
  | resp (status : Nat) (body : β)
  | transportError
deriving DecidableEq, Repr

/-! ### format_file_size (lines 85-91)

    for unit in ['B', 'KB', 'MB', 'GB']:
        if size_bytes < 1024.0: return f"{size_bytes:.2f} {unit}"
        size_bytes /= 1024.0
    return f"{size_bytes:.2f} TB"

The returned string is modelled as the pair (magnitude, unit). -/

def format_go : ℚ → List String → ℚ × String
  | q, [] => (q, "TB")
  | q, u :: rest => if q < 1024 then (q, u) else format_go (q / 1024) rest

def format_file_size (size_bytes : Nat) : ℚ × String :=
  format_go (size_bytes : ℚ) ["B", "KB", "MB", "GB"]

/-- Rank of a unit label in the magnitude order B < KB < MB < GB < TB
(used to state monotonicity of the label). -/
def unitRank : String → Nat
  | "B" => 0
  | "KB" => 1
  | "MB" => 2
  | "GB" => 3
  | _ => 4

/-- The unit index determined by repeated division by 1024
(spec-side characterisation, to compare with `format_file_size`). -/
def sizeUnitIndex (n : Nat) : Nat :=
  if n < 1024 then 0
  else if n < 1024 * 1024 then 1
  else if n < 1024 * 1024 * 1024 then 2
  else if n < 1024 * 1024 * 1024 * 1024 then 3
  else 4

def unitNames : List String := ["B", "KB", "MB", "GB", "TB"]

/-- The unit label at a given index of the B < KB < MB < GB < TB ladder. -/
def unitName : Nat → String
  | 0 => "B"
  | 1 => "KB"
  | 2 => "MB"
  | 3 => "GB"
  | _ => "TB"

/-! ### retry_on_network_error (lines 93-109)

    for attempt in range(1, RETRY_ATTEMPTS + 1):
        try: return func(*args, **kwargs)
        except requests.exceptions.RequestException as e:
            last_exception = e
            if attempt < RETRY_ATTEMPTS: ... time.sleep(RETRY_DELAY_SECONDS)
    raise last_exception

The wrapped call is modelled as `f : Nat → Except ε α` giving the outcome of
each attempt (attempt numbers 1, 2, ...).  The run records the value returned
or the exception finally re-raised (`Except.error none` would be the
unreachable `raise None` when the loop body never runs), the number of calls
made, and the number of `RETRY_DELAY_SECONDS` sleeps performed. -/

structure RetryRun (ε α : Type) : Type where
  outcome : Except (Option ε) α
  calls : Nat
  sleeps : Nat

def retry_go {ε α : Type} (f : Nat → Except ε α) :
    List Nat → Option ε → RetryRun ε α
  | [], lastExc => ⟨Except.error lastExc, 0, 0⟩
  | a :: rest, _ =>
    match f a with
    | Except.ok v => ⟨Except.ok v, 1, 0⟩
    | Except.error e =>
      let r := retry_go f rest (some e)
      if a < RETRY_ATTEMPTS then
        ⟨r.outcome, r.calls + 1, r.sleeps + 1⟩
      else
        ⟨r.outcome, r.calls + 1, r.sleeps⟩

def retry_on_network_error {ε α : Type} (f : Nat → Except ε α) : RetryRun ε α :=
  retry_go f (List.range' 1 RETRY_ATTEMPTS) none

/-- Total seconds slept by a retry run. -/
def RetryRun.sleepSeconds {ε α : Type} (r : RetryRun ε α) : Nat :=
  r.sleeps * RETRY_DELAY_SECONDS

/-! ### get_access_token (lines 115-175)

Credential resolution (lines 126-140) happens before the single, un-retried
token-exchange POST (lines 144-175). -/

structure TokenResponse : Type where
  httpStatus : Nat
  accessToken : Option String
deriving DecidableEq, Repr

inductive AuthOutcome : Type where
  /-- environment variables missing or blank: exit EXIT_USER_ERROR
  listing the missing names, before the network call -/
  | exitMissingVars (vars : List String)
  /-- authentication succeeded: the function returns the access token -/
  | token (t : String)
  /-- any other failure (non-200 status, missing accessToken field, or a
  transport exception): exit EXIT_USER_ERROR -/
  | exitAuthFailure
deriving DecidableEq, Repr

/-- Exit code of an authentication outcome (`none` when the function returns
normally): every failure path of `get_access_token` exits EXIT_USER_ERROR. -/
def authExitCode : AuthOutcome → Option Nat
  | AuthOutcome.token _ => none
  | AuthOutcome.exitMissingVars _ => some EXIT_USER_ERROR
  | AuthOutcome.exitAuthFailure => some EXIT_USER_ERROR

/-- Python's `str.strip()` with no argument: drop leading and trailing
whitespace (modelled over the ASCII whitespace characters space, tab, CR,
LF). -/
def pyStrip (s : String) : String :=
  ⟨((s.data.dropWhile Char.isWhitespace).reverse.dropWhile Char.isWhitespace).reverse⟩

/-- Environment-variable resolution: `os.environ.get(name, '').strip()` for
both variables, collecting missing names in order. -/
def resolve_credentials (clientIdEnv refreshTokenEnv : Option String) :
    List String :=
  (if pyStrip (clientIdEnv.getD "") = "" then ["HARPIN_CLIENT_ID"] else []) ++
  (if pyStrip (refreshTokenEnv.getD "") = "" then ["HARPIN_REFRESH_TOKEN"] else [])

/-- The whole of `get_access_token`, given the two environment variables and
the outcome the token endpoint would deliver (`Except.error` is a transport
exception).  The second component counts network calls made. -/
def get_access_token {ε : Type} (clientIdEnv refreshTokenEnv : Option String)
    (net : Except ε TokenResponse) : AuthOutcome × Nat :=
  let missing := resolve_credentials clientIdEnv refreshTokenEnv
  if missing ≠ [] then
    (AuthOutcome.exitMissingVars missing, 0)
  else
    match net with
    | Except.error _ => (AuthOutcome.exitAuthFailure, 1)
    | Except.ok r =>
      if r.httpStatus = 200 then
        match r.accessToken with
        | some t => (AuthOutcome.token t, 1)
        | none => (AuthOutcome.exitAuthFailure, 1)
      else (AuthOutcome.exitAuthFailure, 1)

/-! ### validate_file (lines 181-219)

The filesystem facts about the path (existence, regular-file-ness,
readability, byte size) are the inputs. -/

inductive FileCheck : Type where
  | fileNotFound
  | notAFile
  | notReadable
  | sizeExceeded
  | validated (size : Nat)
deriving DecidableEq, Repr

def validate_file (pathExists isRegularFile isReadable : Bool) (size : Nat) :
    FileCheck :=
  if !pathExists then FileCheck.fileNotFound
  else if !isRegularFile then FileCheck.notAFile
  else if !isReadable then FileCheck.notReadable
  else if size > MAX_FILE_SIZE_BYTES then FileCheck.sizeExceeded
  else FileCheck.validated size

/-- Exit code of a file-validation outcome: every failing check calls
`sys.exit(EXIT_USER_ERROR)`; on success the function returns normally. -/
def fileCheckExit : FileCheck → Option Nat
  | FileCheck.validated _ => none
  | _ => some EXIT_USER_ERROR

/-! ### validate_source (lines 221-299)

Inputs: the response to `GET /sources/{id}` and the response the secondary
`GET /sources` listing would deliver (issued only in the 404 branch).  The
result records the control-flow outcome and the flatFile sources displayed by
the 404 branch (empty when the listing was not made, failed, or listed
nothing). -/

structure Source : Type where
  id : Option String
  name : Option String
  sourceSystem : Option String
deriving DecidableEq, Repr

/-- Body of `GET /sources/{id}`: only `sourceSystem` is read
(`source_data.get('sourceSystem', 'unknown')`). -/
structure SourceBody : Type where
  sourceSystem : Option String
deriving DecidableEq, Repr

/-- Body of `GET /sources`: `sources_data.get('content', [])`; `none` models a
JSON object with no `content` key. -/
abbrev SourcesListBody : Type := Option (List Source)

inductive VSOutcome : Type where
  | valid
  | exit (code : Nat)
deriving DecidableEq, Repr

def flatFileFilter (sources : List Source) : List Source :=
  sources.filter (fun s => s.sourceSystem = some "flatFile")

def validate_source (fetch : HttpOutcome SourceBody)
    (listing : HttpOutcome SourcesListBody) : VSOutcome × List Source :=
  match fetch with
  | HttpOutcome.transportError => (VSOutcome.exit EXIT_USER_ERROR, [])
  | HttpOutcome.resp status body =>
    if status = 200 then
      if (body.sourceSystem.getD "unknown") ≠ "flatFile" then
        (VSOutcome.exit EXIT_USER_ERROR, [])
      else
        (VSOutcome.valid, [])
    else if status = 404 then
      let displayed :=
        match listing with
        | HttpOutcome.resp s content =>
          if s = 200 then flatFileFilter (content.getD []) else []
        | HttpOutcome.transportError => []
      (VSOutcome.exit EXIT_USER_ERROR, displayed)
    else
      (VSOutcome.exit EXIT_USER_ERROR, [])

/-! ### check_concurrent_uploads (lines 301-364) -/

/-- An entry of the uploads list: a JSON object (only its `status` field is
read, `u.get('status')`) or any non-object item (skipped with a warning). -/
inductive UploadItem : Type where
  | udict (status : Option String)
  | nonDict
deriving DecidableEq, Repr

/-- Parsed body of `GET /sources/{id}/uploads`: a bare JSON array, a JSON
object whose optional `content` field holds the array, or any other JSON
shape (string, number, ...). -/
inductive UploadsJson : Type where
  | jlist (items : List UploadItem)
  | jdict (content : Option (List UploadItem))
  | jother
deriving DecidableEq, Repr

def in_progress_statuses : List String :=
  ["created", "analysisInProgress", "analysisCompleted", "importRequested",
   "importInProgress"]

def itemInProgress : UploadItem → Bool
  | UploadItem.udict (some s) => in_progress_statuses.contains s
  | UploadItem.udict none => false
  | UploadItem.nonDict => false

inductive GateOutcome : Type where
  | proceed (inProgressCount : Nat)
  | exit (code : Nat)
deriving DecidableEq, Repr

def countInProgress (items : List UploadItem) : Nat :=
  (items.filter itemInProgress).length

def gateOnItems (items : List UploadItem) : GateOutcome :=
  if countInProgress items ≥ MAX_CONCURRENT_UPLOADS then
    GateOutcome.exit EXIT_USER_ERROR
  else
    GateOutcome.proceed (countInProgress items)

def check_concurrent_uploads (resp : HttpOutcome UploadsJson) : GateOutcome :=
  match resp with
  | HttpOutcome.transportError => GateOutcome.exit EXIT_SYSTEM_ERROR
  | HttpOutcome.resp status body =>
    if status = 200 then
      match body with
      | UploadsJson.jdict content => gateOnItems (content.getD [])
      | UploadsJson.jlist items => gateOnItems items
      | UploadsJson.jother => GateOutcome.exit EXIT_SYSTEM_ERROR
    else
      GateOutcome.exit EXIT_SYSTEM_ERROR

/-! ### poll_status (lines 473-530)

The loop body is driven by successive responses of
`GET /sources/{id}/uploads/{uploadId}`; a run is modelled over the finite
trace of responses observed (each a status code with the parsed payload).
Transport exceptions propagate to the retry decorator and are outside this
trace.  `extra` stands for the payload fields the loop does not read, so that
"returns the full response payload" is meaningful. -/

structure UploadPayload : Type where
  status : Option String
  errorMessage : Option String
  extra : List (String × String)
deriving DecidableEq, Repr

inductive PollOutcome : Type where
  /-- target status reached: the full payload is returned -/
  | success (payload : UploadPayload)
  /-- status `failed` observed: exit EXIT_SYSTEM_ERROR surfacing the server's
  `errorMessage` (default "Unknown error") -/
  | failedExit (errorMessage : String)
  /-- non-200 poll response: exit EXIT_SYSTEM_ERROR -/
  | httpErrorExit (code : Nat)
  /-- trace exhausted with the loop still polling -/
  | pending
deriving DecidableEq, Repr

/-- One run of the polling loop over a trace of responses, starting from a
given `last_status`; also returns the list of `Status: ...` log lines emitted
(the status logged each time it differs from the previous one). -/
def poll_loop (target : String) :
    Option String → List (Nat × UploadPayload) → PollOutcome × List (Option String)
  | _, [] => (PollOutcome.pending, [])
  | lastStatus, (code, data) :: rest =>
    if code = 200 then
      let currentStatus := data.status
      let logs := if currentStatus ≠ lastStatus then [currentStatus] else []
      if currentStatus = some "failed" then
        (PollOutcome.failedExit (data.errorMessage.getD "Unknown error"), logs)
      else if currentStatus = some target then
        (PollOutcome.success data, logs)
      else
        let next := poll_loop target currentStatus rest
        (next.1, logs ++ next.2)
    else
      (PollOutcome.httpErrorExit code, [])

def poll_status (target : String) (trace : List (Nat × UploadPayload)) :
    PollOutcome × List (Option String) :=
  poll_loop target none trace

/-- The subsequence of a status sequence obtained by dropping each element
equal to its predecessor (the predecessor of the first being `last`): exactly
the statuses `poll_loop` logs. -/
def chainDedup : Option String → List (Option String) → List (Option String)
  | _, [] => []
  | last, x :: xs => (if x ≠ last then [x] else []) ++ chainDedup x xs

/-- The status fields of a response trace, in order. -/
def statusesOf (trace : List (Nat × UploadPayload)) : List (Option String) :=
  trace.map (fun x => x.2.status)

/-- Value of `last_status` after the loop has processed a status sequence. -/
def lastStatusAfter : Option String → List (Option String) → Option String
  | last, [] => last
  | _, x :: xs => lastStatusAfter x xs

/-! ## Theorems -/

/-- Claim C1, counterexample: a fetch-source response with HTTP status 500
(neither 200 nor 404) makes `validate_source` exit with code 1
(EXIT_USER_ERROR), not with the fatal system-error code 2 the claim states. -/
theorem C1_counterexample :
    (validate_source (HttpOutcome.resp 500 ⟨some "flatFile"⟩)
        HttpOutcome.transportError).1 = VSOutcome.exit EXIT_USER_ERROR ∧
    EXIT_USER_ERROR ≠ EXIT_SYSTEM_ERROR := by
  constructor
  · rfl
  · decide

/-- Claim C1 (amended): during remote source validation, every fetch-source
response whose HTTP status is neither 200 nor 404 terminates the process as a
user error (exit code 1). -/
theorem C1_other_status_exits_user_error (status : Nat) (body : SourceBody)
    (listing : HttpOutcome SourcesListBody)
    (h200 : status ≠ 200) (h404 : status ≠ 404) :
    (validate_source (HttpOutcome.resp status body) listing).1 =
      VSOutcome.exit EXIT_USER_ERROR := by
  simp [validate_source, h200, h404]

/-- Witness for C1 (amended) at status 500. -/
theorem C1_other_status_exits_user_error_witness :
    (validate_source (HttpOutcome.resp 500 ⟨some "flatFile"⟩)
        (HttpOutcome.resp 200 (some []))).1 = VSOutcome.exit EXIT_USER_ERROR :=
  C1_other_status_exits_user_error 500 ⟨some "flatFile"⟩
    (HttpOutcome.resp 200 (some [])) (by decide) (by decide)

/-- Claim C4: the concurrency gate counts exactly the upload-list entries
whose status lies in {created, analysisInProgress, analysisCompleted,
importRequested, importInProgress}; a 200-listing whose in-progress count is
at least 3 is refused with exit code 1, and one whose count is at most 2
proceeds. -/
theorem C4_concurrency_gate (items : List UploadItem) :
    (∀ u ∈ items, itemInProgress u = true ↔
      ∃ s, u = UploadItem.udict (some s) ∧ s ∈ in_progress_statuses) ∧
    (countInProgress items ≥ MAX_CONCURRENT_UPLOADS →
      check_concurrent_uploads (HttpOutcome.resp 200 (UploadsJson.jlist items)) =
        GateOutcome.exit EXIT_USER_ERROR) ∧
    (countInProgress items ≤ 2 →
      check_concurrent_uploads (HttpOutcome.resp 200 (UploadsJson.jlist items)) =
        GateOutcome.proceed (countInProgress items)) := by
  refine ⟨?_, ?_, ?_⟩
  · intro u _
    match u with
    | UploadItem.udict (some s) => simp [itemInProgress, List.elem_iff]
    | UploadItem.udict none => simp [itemInProgress]
    | UploadItem.nonDict => simp [itemInProgress]
  · intro h
    simp [check_concurrent_uploads, gateOnItems, h]
  · intro h
    have h3 : ¬ countInProgress items ≥ MAX_CONCURRENT_UPLOADS := by
      simp only [MAX_CONCURRENT_UPLOADS]; omega
    simp [check_concurrent_uploads, gateOnItems, h3]

/-- Witness for C4: a listing with three in-progress uploads is refused; a
listing with two in-progress uploads (and one non-dict entry, one terminal
entry) proceeds with count 2. -/
theorem C4_concurrency_gate_witness :
    (itemInProgress (UploadItem.udict (some "importRequested")) = true ↔
      ∃ s, UploadItem.udict (some "importRequested") = UploadItem.udict (some s) ∧
        s ∈ in_progress_statuses) ∧
    check_concurrent_uploads (HttpOutcome.resp 200 (UploadsJson.jlist
        [UploadItem.udict (some "created"), UploadItem.udict (some "analysisInProgress"),
         UploadItem.udict (some "importInProgress")])) =
      GateOutcome.exit EXIT_USER_ERROR ∧
    check_concurrent_uploads (HttpOutcome.resp 200 (UploadsJson.jlist
        [UploadItem.udict (some "created"), UploadItem.nonDict,
         UploadItem.udict (some "importCompleted"),
         UploadItem.udict (some "analysisCompleted")])) =
      GateOutcome.proceed (countInProgress
        [UploadItem.udict (some "created"), UploadItem.nonDict,
         UploadItem.udict (some "importCompleted"),
         UploadItem.udict (some "analysisCompleted")]) :=
  ⟨(C4_concurrency_gate [UploadItem.udict (some "importRequested")]).1
      (UploadItem.udict (some "importRequested")) (by decide),
   (C4_concurrency_gate _).2.1 (by decide),
   (C4_concurrency_gate _).2.2 (by decide)⟩

/-- Claim C5: on a 404 fetch-source response, whatever the secondary listing
call delivers (success, bad status, or a transport failure), validation exits
with code 1; every source displayed has sourceSystem flatFile; and on a
successful listing exactly the flatFile entries of its content are
displayed. -/
theorem mem_flatFileFilter (l : List Source) (s : Source)
    (hs : s ∈ flatFileFilter l) : s.sourceSystem = some "flatFile" := by
  rcases List.mem_filter.mp hs with ⟨-, hp⟩
  exact of_decide_eq_true hp

theorem C5_not_found_lists_flat_file_sources (body : SourceBody)
    (listing : HttpOutcome SourcesListBody) :
    (validate_source (HttpOutcome.resp 404 body) listing).1 =
      VSOutcome.exit EXIT_USER_ERROR ∧
    (∀ s ∈ (validate_source (HttpOutcome.resp 404 body) listing).2,
      s.sourceSystem = some "flatFile") ∧
    (∀ sources : List Source, listing = HttpOutcome.resp 200 (some sources) →
      (validate_source (HttpOutcome.resp 404 body) listing).2 =
        flatFileFilter sources) := by
  refine ⟨?_, ?_, ?_⟩
  · cases listing with
    | transportError => rfl
    | resp s content => simp [validate_source]
  · intro s hs
    cases listing with
    | transportError => simp [validate_source] at hs
    | resp st content =>
      by_cases h : st = 200
      · subst h
        cases content with
        | none => simp [validate_source, flatFileFilter] at hs
        | some sources =>
          have h2 : (validate_source (HttpOutcome.resp 404 body)
              (HttpOutcome.resp 200 (some sources))).2 = flatFileFilter sources := by
            simp [validate_source]
          rw [h2] at hs
          exact mem_flatFileFilter sources s hs
      · simp [validate_source, h] at hs
  · intro sources hl
    subst hl
    simp [validate_source]

/-- Witness for C5 at a concrete 404 scenario: the listing returns one
flatFile source and one other source; only the flatFile one is displayed and
the process exits with code 1. -/
theorem C5_not_found_lists_flat_file_sources_witness :
    (validate_source (HttpOutcome.resp 404 ⟨none⟩)
        (HttpOutcome.resp 200 (some
          [⟨some "a", some "A", some "flatFile"⟩,
           ⟨some "b", some "B", some "salesforce"⟩]))).1 =
      VSOutcome.exit EXIT_USER_ERROR ∧
    (⟨some "a", some "A", some "flatFile"⟩ : Source).sourceSystem =
      some "flatFile" ∧
    (validate_source (HttpOutcome.resp 404 ⟨none⟩)
        (HttpOutcome.resp 200 (some
          [⟨some "a", some "A", some "flatFile"⟩,
           ⟨some "b", some "B", some "salesforce"⟩]))).2 =
      flatFileFilter
        [⟨some "a", some "A", some "flatFile"⟩,
         ⟨some "b", some "B", some "salesforce"⟩] :=
  ⟨(C5_not_found_lists_flat_file_sources ⟨none⟩ _).1,
   (C5_not_found_lists_flat_file_sources ⟨none⟩
      (HttpOutcome.resp 200 (some
        [⟨some "a", some "A", some "flatFile"⟩,
         ⟨some "b", some "B", some "salesforce"⟩]))).2.1
      ⟨some "a", some "A", some "flatFile"⟩ (by decide),
   (C5_not_found_lists_flat_file_sources ⟨none⟩ _).2.2 _ rfl⟩

/-- Claim C6: a file whose byte size exceeds 5 GiB always fails local file
validation with exit code 1 whatever the other facts about the path, and a
file whose size is at most 5 GiB never fails the size check. -/
theorem C6_file_size_ceiling (pathExists isRegularFile isReadable : Bool)
    (size : Nat) :
    (size > MAX_FILE_SIZE_BYTES →
      fileCheckExit (validate_file pathExists isRegularFile isReadable size) =
        some EXIT_USER_ERROR) ∧
    (size ≤ MAX_FILE_SIZE_BYTES →
      validate_file pathExists isRegularFile isReadable size ≠
        FileCheck.sizeExceeded) := by
  constructor
  · intro h
    cases pathExists <;> cases isRegularFile <;> cases isReadable <;>
      simp [validate_file, fileCheckExit, h]
  · intro h
    have h' : ¬ size > MAX_FILE_SIZE_BYTES := by omega
    cases pathExists <;> cases isRegularFile <;> cases isReadable <;>
      simp [validate_file, h']

/-- Witness for C6 at sizes one byte above the ceiling and exactly at it. -/
theorem C6_file_size_ceiling_witness :
    fileCheckExit (validate_file true true true (MAX_FILE_SIZE_BYTES + 1)) =
      some EXIT_USER_ERROR ∧
    validate_file true true true MAX_FILE_SIZE_BYTES ≠
      FileCheck.sizeExceeded :=
  ⟨(C6_file_size_ceiling true true true (MAX_FILE_SIZE_BYTES + 1)).1 (by omega),
   (C6_file_size_ceiling true true true MAX_FILE_SIZE_BYTES).2 (by omega)⟩

/-- Claim C7: when either credential environment variable is absent, empty,
or whitespace-only after stripping, `get_access_token` exits with code 1
listing exactly the missing variable names, and makes no network call. -/
theorem C7_missing_credentials {ε : Type} (clientIdEnv refreshTokenEnv : Option String)
    (net : Except ε TokenResponse)
    (h : pyStrip (clientIdEnv.getD "") = "" ∨ pyStrip (refreshTokenEnv.getD "") = "") :
    ∃ vars, get_access_token clientIdEnv refreshTokenEnv net =
        (AuthOutcome.exitMissingVars vars, 0) ∧
      authExitCode (AuthOutcome.exitMissingVars vars) = some EXIT_USER_ERROR ∧
      ("HARPIN_CLIENT_ID" ∈ vars ↔ pyStrip (clientIdEnv.getD "") = "") ∧
      ("HARPIN_REFRESH_TOKEN" ∈ vars ↔ pyStrip (refreshTokenEnv.getD "") = "") ∧
      (∀ v ∈ vars, v = "HARPIN_CLIENT_ID" ∨ v = "HARPIN_REFRESH_TOKEN") := by
  by_cases hc : pyStrip (clientIdEnv.getD "") = "" <;>
    by_cases hr : pyStrip (refreshTokenEnv.getD "") = ""
  · exact ⟨["HARPIN_CLIENT_ID", "HARPIN_REFRESH_TOKEN"],
      by simp [get_access_token, resolve_credentials, hc, hr],
      rfl, by simp [hc], by simp [hr], by simp⟩
  · exact ⟨["HARPIN_CLIENT_ID"],
      by simp [get_access_token, resolve_credentials, hc, hr],
      rfl, by simp [hc], by simp [hr], by simp⟩
  · exact ⟨["HARPIN_REFRESH_TOKEN"],
      by simp [get_access_token, resolve_credentials, hc, hr],
      rfl, by simp [hc], by simp [hr], by simp⟩
  · rcases h with h | h
    · exact absurd h hc
    · exact absurd h hr

/-- Witness for C7: client id whitespace-only, refresh token present. -/
theorem C7_missing_credentials_witness :
    ∃ vars, get_access_token (ε := Unit) (some "   ") (some "tok")
        (Except.ok ⟨200, some "access"⟩) =
        (AuthOutcome.exitMissingVars vars, 0) ∧
      authExitCode (AuthOutcome.exitMissingVars vars) = some EXIT_USER_ERROR ∧
      ("HARPIN_CLIENT_ID" ∈ vars ↔ pyStrip ((some "   ").getD "") = "") ∧
      ("HARPIN_REFRESH_TOKEN" ∈ vars ↔ pyStrip ((some "tok").getD "") = "") ∧
      (∀ v ∈ vars, v = "HARPIN_CLIENT_ID" ∨ v = "HARPIN_REFRESH_TOKEN") :=
  C7_missing_credentials (some "   ") (some "tok")
    (Except.ok ⟨200, some "access"⟩) (Or.inl (by decide))

/-- Claim C8: a transport-level exception during the token exchange is never
retried: with both credentials present, `get_access_token` terminates (exit
code 1) after exactly one network call on the first such exception. -/
theorem C8_token_exchange_not_retried {ε : Type}
    (clientIdEnv refreshTokenEnv : Option String) (e : ε)
    (hc : pyStrip (clientIdEnv.getD "") ≠ "")
    (hr : pyStrip (refreshTokenEnv.getD "") ≠ "") :
    get_access_token clientIdEnv refreshTokenEnv (Except.error e) =
      (AuthOutcome.exitAuthFailure, 1) ∧
    authExitCode (get_access_token clientIdEnv refreshTokenEnv
        (Except.error e)).1 = some EXIT_USER_ERROR := by
  have : get_access_token clientIdEnv refreshTokenEnv (Except.error e) =
      (AuthOutcome.exitAuthFailure, 1) := by
    simp [get_access_token, resolve_credentials, hc, hr]
  exact ⟨this, by rw [this]; rfl⟩

/-- Witness for C8 with concrete non-blank credentials. -/
theorem C8_token_exchange_not_retried_witness :
    get_access_token (ε := Unit) (some "cid") (some "tok") (Except.error ()) =
      (AuthOutcome.exitAuthFailure, 1) ∧
    authExitCode (get_access_token (ε := Unit) (some "cid") (some "tok")
        (Except.error ())).1 = some EXIT_USER_ERROR :=
  C8_token_exchange_not_retried (some "cid") (some "tok") ()
    (by decide) (by decide)

/-- Computation of a full retry run: the wrapper consults at most the first
three attempt outcomes. -/
theorem retry_eq {ε α : Type} (f : Nat → Except ε α) :
    retry_on_network_error f =
      match f 1 with
      | Except.ok v => ⟨Except.ok v, 1, 0⟩
      | Except.error _ =>
        match f 2 with
        | Except.ok v => ⟨Except.ok v, 2, 1⟩
        | Except.error _ =>
          match f 3 with
          | Except.ok v => ⟨Except.ok v, 3, 2⟩
          | Except.error e₃ => ⟨Except.error (some e₃), 3, 2⟩ := by
  have hr : List.range' 1 RETRY_ATTEMPTS = [1, 2, 3] := rfl
  rcases h1 : f 1 with e1 | v1 <;> rcases h2 : f 2 with e2 | v2 <;>
    rcases h3 : f 3 with e3 | v3 <;>
      simp [retry_on_network_error, hr, retry_go, h1, h2, h3, RETRY_ATTEMPTS]

/-- Claim C3: the retry wrapper makes at most 3 attempts, sleeping a fixed 10
seconds between consecutive attempts (total slept time is 10 s per attempt
after the first); an operation failing twice with transport errors and
succeeding on the third attempt yields the success value after 20 s of sleep;
an operation whose three attempts all throw the transport exception e makes
the wrapper re-raise e. -/
theorem C3_retry_wrapper {ε α : Type} (f g : Nat → Except ε α) (v : α)
    (e e₁ e₂ : ε) :
    (retry_on_network_error f).calls ≤ RETRY_ATTEMPTS ∧
    (retry_on_network_error f).sleepSeconds =
      ((retry_on_network_error f).calls - 1) * RETRY_DELAY_SECONDS ∧
    (f 1 = Except.error e₁ → f 2 = Except.error e₂ → f 3 = Except.ok v →
      (retry_on_network_error f).outcome = Except.ok v ∧
      (retry_on_network_error f).calls = 3 ∧
      (retry_on_network_error f).sleepSeconds = 2 * RETRY_DELAY_SECONDS) ∧
    (g 1 = Except.error e → g 2 = Except.error e → g 3 = Except.error e →
      (retry_on_network_error g).outcome = Except.error (some e) ∧
      (retry_on_network_error g).calls = 3 ∧
      (retry_on_network_error g).sleepSeconds = 2 * RETRY_DELAY_SECONDS) := by
  refine ⟨?_, ?_, ?_, ?_⟩
  · rw [retry_eq f]
    rcases h1 : f 1 with e1 | v1 <;> rcases h2 : f 2 with e2 | v2 <;>
      rcases h3 : f 3 with e3 | v3 <;> simp [RETRY_ATTEMPTS]
  · rw [retry_eq f]
    rcases h1 : f 1 with e1 | v1 <;> rcases h2 : f 2 with e2 | v2 <;>
      rcases h3 : f 3 with e3 | v3 <;>
        simp [RetryRun.sleepSeconds, RETRY_DELAY_SECONDS]
  · intro h1 h2 h3
    rw [retry_eq f, h1, h2, h3]
    exact ⟨rfl, rfl, rfl⟩
  · intro h1 h2 h3
    rw [retry_eq g, h1, h2, h3]
    exact ⟨rfl, rfl, rfl⟩

/-- Witness for C3: one operation failing twice then succeeding with value 7,
one failing on all three attempts with the same exception. -/
theorem C3_retry_wrapper_witness :
    (retry_on_network_error (fun n => if n = 3 then Except.ok 7
        else (Except.error "conn reset" : Except String Nat))).calls ≤
      RETRY_ATTEMPTS ∧
    (retry_on_network_error (fun n => if n = 3 then Except.ok 7
        else (Except.error "conn reset" : Except String Nat))).sleepSeconds =
      ((retry_on_network_error (fun n => if n = 3 then Except.ok 7
        else (Except.error "conn reset" : Except String Nat))).calls - 1) *
        RETRY_DELAY_SECONDS ∧
    ((retry_on_network_error (fun n => if n = 3 then Except.ok 7
        else (Except.error "conn reset" : Except String Nat))).outcome =
        Except.ok 7 ∧
      (retry_on_network_error (fun n => if n = 3 then Except.ok 7
        else (Except.error "conn reset" : Except String Nat))).calls = 3 ∧
      (retry_on_network_error (fun n => if n = 3 then Except.ok 7
        else (Except.error "conn reset" : Except String Nat))).sleepSeconds =
        2 * RETRY_DELAY_SECONDS) ∧
    ((retry_on_network_error (fun _ =>
        (Except.error "dns failure" : Except String Nat))).outcome =
        Except.error (some "dns failure") ∧
      (retry_on_network_error (fun _ =>
        (Except.error "dns failure" : Except String Nat))).calls = 3 ∧
      (retry_on_network_error (fun _ =>
        (Except.error "dns failure" : Except String Nat))).sleepSeconds =
        2 * RETRY_DELAY_SECONDS) := by
  have h := C3_retry_wrapper
    (fun n => if n = 3 then Except.ok 7
      else (Except.error "conn reset" : Except String Nat))
    (fun _ => (Except.error "dns failure" : Except String Nat))
    7 "dns failure" "conn reset" "conn reset"
  exact ⟨h.1, h.2.1, h.2.2.1 rfl rfl rfl, h.2.2.2 rfl rfl rfl⟩

/-- Closed form of `format_file_size`: the magnitude is the byte count
divided by 1024 raised to the threshold-determined unit index, and the label
is that index's unit. -/
theorem format_file_size_eq (n : Nat) :
    format_file_size n =
      ((n : ℚ) / 1024 ^ sizeUnitIndex n, unitName (sizeUnitIndex n)) := by
  have e0 : (0 : ℚ) < 1024 := by norm_num
  by_cases h0 : n < 1024
  · have c0 : (n : ℚ) < 1024 := by exact_mod_cast h0
    have hidx : sizeUnitIndex n = 0 := by simp [sizeUnitIndex, h0]
    have hval : format_file_size n = ((n : ℚ), "B") := by
      simp [format_file_size, format_go, c0]
    rw [hval, hidx, Prod.mk.injEq]
    exact ⟨by norm_num, rfl⟩
  · have c0 : ¬ (n : ℚ) < 1024 := by exact_mod_cast h0
    by_cases h1 : n < 1024 * 1024
    · have c1 : (n : ℚ) / 1024 < 1024 := by
        rw [div_lt_iff₀ e0]; exact_mod_cast h1
      have hidx : sizeUnitIndex n = 1 := by simp [sizeUnitIndex, h0, h1]
      have hval : format_file_size n = ((n : ℚ) / 1024, "KB") := by
        simp [format_file_size, format_go, c0, c1]
      rw [hval, hidx, Prod.mk.injEq]
      exact ⟨by norm_num, rfl⟩
    · have c1 : ¬ (n : ℚ) / 1024 < 1024 := by
        rw [div_lt_iff₀ e0]; exact_mod_cast h1
      by_cases h2 : n < 1024 * 1024 * 1024
      · have c2 : (n : ℚ) / 1024 / 1024 < 1024 := by
          rw [div_lt_iff₀ e0, div_lt_iff₀ e0]; exact_mod_cast h2
        have hidx : sizeUnitIndex n = 2 := by simp [sizeUnitIndex, h0, h1, h2]
        have hval : format_file_size n = ((n : ℚ) / 1024 / 1024, "MB") := by
          simp [format_file_size, format_go, c0, c1, c2]
        rw [hval, hidx, Prod.mk.injEq]
        refine ⟨?_, rfl⟩
        rw [div_div]
        norm_num
      · have c2 : ¬ (n : ℚ) / 1024 / 1024 < 1024 := by
          rw [div_lt_iff₀ e0, div_lt_iff₀ e0]; exact_mod_cast h2
        by_cases h3 : n < 1024 * 1024 * 1024 * 1024
        · have c3 : (n : ℚ) / 1024 / 1024 / 1024 < 1024 := by
            rw [div_lt_iff₀ e0, div_lt_iff₀ e0, div_lt_iff₀ e0]
            exact_mod_cast h3
          have hidx : sizeUnitIndex n = 3 := by
            simp [sizeUnitIndex, h0, h1, h2, h3]
          have hval : format_file_size n =
              ((n : ℚ) / 1024 / 1024 / 1024, "GB") := by
            simp [format_file_size, format_go, c0, c1, c2, c3]
          rw [hval, hidx, Prod.mk.injEq]
          refine ⟨?_, rfl⟩
          rw [div_div, div_div]
          norm_num
        · have c3 : ¬ (n : ℚ) / 1024 / 1024 / 1024 < 1024 := by
            rw [div_lt_iff₀ e0, div_lt_iff₀ e0, div_lt_iff₀ e0]
            exact_mod_cast h3
          have hidx : sizeUnitIndex n = 4 := by
            simp [sizeUnitIndex, h0, h1, h2, h3]
          have hval : format_file_size n =
              ((n : ℚ) / 1024 / 1024 / 1024 / 1024, "TB") := by
            simp [format_file_size, format_go, c0, c1, c2, c3]
          rw [hval, hidx, Prod.mk.injEq]
          refine ⟨?_, rfl⟩
          rw [div_div, div_div, div_div]
          norm_num

theorem sizeUnitIndex_le_four (n : Nat) : sizeUnitIndex n ≤ 4 := by
  simp only [sizeUnitIndex]
  split_ifs <;> omega

theorem sizeUnitIndex_mono {n m : Nat} (h : n ≤ m) :
    sizeUnitIndex n ≤ sizeUnitIndex m := by
  simp only [sizeUnitIndex]
  split_ifs <;> omega

theorem unitRank_unitName (k : Nat) (hk : k ≤ 4) : unitRank (unitName k) = k := by
  interval_cases k <;> rfl

theorem unitName_mem (k : Nat) : unitName k ∈ ["B", "KB", "MB", "GB", "TB"] := by
  match k with
  | 0 => decide
  | 1 => decide
  | 2 => decide
  | 3 => decide
  | j + 4 => show "TB" ∈ _ ; decide

/-- Claim C9: for every byte size the formatter's unit is drawn from
{B, KB, MB, GB, TB}, the value is the size divided by 1024 to the unit's
index (the repeated-division characterisation), and the unit's rank is
monotonically non-decreasing in the size. -/
theorem C9_format_units (n m : Nat) (h : n ≤ m) :
    (format_file_size n).2 ∈ ["B", "KB", "MB", "GB", "TB"] ∧
    format_file_size n =
      ((n : ℚ) / 1024 ^ sizeUnitIndex n, unitName (sizeUnitIndex n)) ∧
    unitRank (format_file_size n).2 ≤ unitRank (format_file_size m).2 := by
  refine ⟨?_, format_file_size_eq n, ?_⟩
  · rw [format_file_size_eq]
    exact unitName_mem _
  · rw [format_file_size_eq, format_file_size_eq]
    rw [show ((((n : ℚ) / 1024 ^ sizeUnitIndex n, unitName (sizeUnitIndex n)) :
        ℚ × String)).2 = unitName (sizeUnitIndex n) from rfl]
    rw [show ((((m : ℚ) / 1024 ^ sizeUnitIndex m, unitName (sizeUnitIndex m)) :
        ℚ × String)).2 = unitName (sizeUnitIndex m) from rfl]
    rw [unitRank_unitName _ (sizeUnitIndex_le_four n),
      unitRank_unitName _ (sizeUnitIndex_le_four m)]
    exact sizeUnitIndex_mono h

/-- Witness for C9 at 2 KiB and ~5 GB. -/
theorem C9_format_units_witness :
    (format_file_size 2048).2 ∈ ["B", "KB", "MB", "GB", "TB"] ∧
    format_file_size 2048 =
      ((2048 : ℚ) / 1024 ^ sizeUnitIndex 2048, unitName (sizeUnitIndex 2048)) ∧
    unitRank (format_file_size 2048).2 ≤
      unitRank (format_file_size 5000000000).2 :=
  C9_format_units 2048 5000000000 (by norm_num)

/-- Claim C10: a 200 upload-list response whose body is a JSON object with no
content key is treated as an empty list: the gate proceeds with in-progress
count 0 instead of exiting. -/
theorem C10_missing_content_key_proceeds :
    check_concurrent_uploads (HttpOutcome.resp 200 (UploadsJson.jdict none)) =
      GateOutcome.proceed 0 := by
  rfl

/-! C2 auxiliary lemmas about the polling loop. -/

theorem lastStatusAfter_eq_or_mem (last : Option String)
    (l : List (Option String)) :
    lastStatusAfter last l = last ∨ lastStatusAfter last l ∈ l := by
  induction l generalizing last with
  | nil => exact Or.inl rfl
  | cons x xs ih =>
    rcases ih x with h | h
    · exact Or.inr (by simp [lastStatusAfter, h])
    · refine Or.inr ?_
      rw [show lastStatusAfter last (x :: xs) = lastStatusAfter x xs from rfl]
      exact List.mem_cons_of_mem x h

theorem chainDedup_append (last : Option String)
    (xs ys : List (Option String)) :
    chainDedup last (xs ++ ys) =
      chainDedup last xs ++ chainDedup (lastStatusAfter last xs) ys := by
  induction xs generalizing last with
  | nil => simp [chainDedup, lastStatusAfter]
  | cons x l ih => simp [chainDedup, lastStatusAfter, ih]

/-- Running the loop over a prefix of 200-responses whose statuses are
neither `failed` nor the target just accumulates the status-change log and
threads `last_status` into the rest of the trace. -/
theorem poll_loop_skip_clean (target : String)
    (pre : List (Nat × UploadPayload)) :
    ∀ (tl : List (Nat × UploadPayload)) (last : Option String),
      (∀ x ∈ pre, x.1 = 200 ∧ x.2.status ≠ some "failed" ∧
        x.2.status ≠ some target) →
      poll_loop target last (pre ++ tl) =
        ((poll_loop target (lastStatusAfter last (statusesOf pre)) tl).1,
         chainDedup last (statusesOf pre) ++
           (poll_loop target (lastStatusAfter last (statusesOf pre)) tl).2) := by
  induction pre with
  | nil => intro tl last _; simp [statusesOf, chainDedup, lastStatusAfter]
  | cons x xs ih =>
    intro tl last hpre
    obtain ⟨code, data⟩ := x
    obtain ⟨h200, hfail, htgt⟩ := hpre (code, data) (List.mem_cons_self _ _)
    have hcode : code = 200 := h200
    subst hcode
    have hfail' : data.status ≠ some "failed" := hfail
    have htgt' : data.status ≠ some target := htgt
    have hrest : ∀ y ∈ xs, y.1 = 200 ∧ y.2.status ≠ some "failed" ∧
        y.2.status ≠ some target :=
      fun y hy => hpre y (List.mem_cons_of_mem _ hy)
    have step : poll_loop target last (((200, data) :: xs) ++ tl) =
        ((poll_loop target data.status (xs ++ tl)).1,
         (if data.status ≠ last then [data.status] else []) ++
           (poll_loop target data.status (xs ++ tl)).2) := by
      rw [show ((200, data) :: xs) ++ tl = (200, data) :: (xs ++ tl) from rfl]
      simp [poll_loop, hfail', htgt']
    rw [step, ih tl data.status hrest]
    simp [statusesOf, lastStatusAfter, chainDedup, List.append_assoc]

/-- Claim C2: over any poll trace made of 200-responses whose statuses avoid
`failed` and the target up to a first decisive response, `poll_status`
returns the full payload of the first poll whose status equals the target,
exits with the server's error message (never returning a payload) when a
`failed` status arrives first, and logs exactly the consecutive-duplicate-free
status sequence. -/
theorem C2_poll_status (target : String)
    (pre rest : List (Nat × UploadPayload)) (p : UploadPayload)
    (hpre : ∀ x ∈ pre, x.1 = 200 ∧ x.2.status ≠ some "failed" ∧
      x.2.status ≠ some target)
    (htarget : target ≠ "failed") :
    (p.status = some target →
      poll_status target (pre ++ (200, p) :: rest) =
        (PollOutcome.success p,
         chainDedup none (statusesOf pre ++ [p.status]))) ∧
    (p.status = some "failed" →
      poll_status target (pre ++ (200, p) :: rest) =
        (PollOutcome.failedExit (p.errorMessage.getD "Unknown error"),
         chainDedup none (statusesOf pre ++ [p.status]))) := by
  have hL := lastStatusAfter_eq_or_mem none (statusesOf pre)
  have hLt : lastStatusAfter none (statusesOf pre) ≠ some target := by
    rcases hL with h | h
    · rw [h]; exact fun hc => Option.noConfusion hc
    · rcases List.mem_map.mp h with ⟨x, hx, hx2⟩
      rw [← hx2]; exact (hpre x hx).2.2
  have hLf : lastStatusAfter none (statusesOf pre) ≠ some "failed" := by
    rcases hL with h | h
    · rw [h]; exact fun hc => Option.noConfusion hc
    · rcases List.mem_map.mp h with ⟨x, hx, hx2⟩
      rw [← hx2]; exact (hpre x hx).2.1
  constructor
  · intro hps
    have hlog : p.status ≠ lastStatusAfter none (statusesOf pre) := by
      rw [hps]; exact fun hc => hLt hc.symm
    have hnf : p.status ≠ some "failed" := by
      rw [hps]; simp [htarget]
    have hlog2 : ¬ (some target = lastStatusAfter none (statusesOf pre)) :=
      fun hc => hLt hc.symm
    have htail : poll_loop target (lastStatusAfter none (statusesOf pre))
        ((200, p) :: rest) = (PollOutcome.success p, [p.status]) := by
      simp [poll_loop, hnf, hps, hlog, htarget, hlog2]
    rw [poll_status, poll_loop_skip_clean target pre ((200, p) :: rest) none
      hpre, htail, chainDedup_append]
    simp [chainDedup, hlog]
  · intro hps
    have hlog : p.status ≠ lastStatusAfter none (statusesOf pre) := by
      rw [hps]; exact fun hc => hLf hc.symm
    have hlog2 : ¬ (some "failed" = lastStatusAfter none (statusesOf pre)) :=
      fun hc => hLf hc.symm
    have htail : poll_loop target (lastStatusAfter none (statusesOf pre))
        ((200, p) :: rest) =
        (PollOutcome.failedExit (p.errorMessage.getD "Unknown error"),
         [p.status]) := by
      simp [poll_loop, hps, hlog, hlog2]
    rw [poll_status, poll_loop_skip_clean target pre ((200, p) :: rest) none
      hpre, htail, chainDedup_append]
    simp [chainDedup, hlog]

/-- Witness for C2: target `analysisCompleted` reached through
created → analysisInProgress → analysisCompleted returns the payload of the
matching poll; a trace reaching `failed` first exits with the server's error
message; both log each status once. -/
theorem C2_poll_status_witness :
    poll_status "analysisCompleted"
        [(200, ⟨some "created", none, []⟩),
         (200, ⟨some "analysisInProgress", none, []⟩),
         (200, ⟨some "analysisCompleted", none, [("totalRecords", "100")]⟩)] =
      (PollOutcome.success
        ⟨some "analysisCompleted", none, [("totalRecords", "100")]⟩,
       chainDedup none (statusesOf
         [(200, ⟨some "created", none, []⟩),
          (200, ⟨some "analysisInProgress", none, []⟩)] ++
         [some "analysisCompleted"])) ∧
    poll_status "analysisCompleted"
        [(200, ⟨some "created", none, []⟩),
         (200, ⟨some "failed", some "row 7: bad delimiter", []⟩)] =
      (PollOutcome.failedExit "row 7: bad delimiter",
       chainDedup none (statusesOf [(200, ⟨some "created", none, []⟩)] ++
         [some "failed"])) :=
  ⟨(C2_poll_status "analysisCompleted"
      [(200, ⟨some "created", none, []⟩),
       (200, ⟨some "analysisInProgress", none, []⟩)] []
      ⟨some "analysisCompleted", none, [("totalRecords", "100")]⟩
      (by decide) (by decide)).1 rfl,
   (C2_poll_status "analysisCompleted"
      [(200, ⟨some "created", none, []⟩)] []
      ⟨some "failed", some "row 7: bad delimiter", []⟩
      (by decide) (by decide)).2 rfl⟩

end Harpin
